import Mathlib

/-!
Verification of the `get_cities` request handler of `src/api/index.py`
(a Flask proxy that queries a Notion database and returns a flat JSON
array of city names).

The handler is shallowly embedded: JSON values are an inductive type,
Python's dynamic operations (`dict.get`, subscription, truthiness,
`str.strip`) are explicit functions returning `Except PyErr _`, and the
outcome of the single outbound `requests.post` call is a small sum type
covering the cases the handler distinguishes (a response with some
status and body, a timeout, a transport error with no response).
-/

/-- A JSON value, as produced by `response.json()` in the handler.
Numbers are modelled as integers (no claim depends on non-integral
numbers); objects are association lists of string keys, assumed
duplicate-free as produced by JSON parsing. -/
inductive Json where
  | null : Json
  | bool (b : Bool) : Json
  | num (n : Int) : Json
  | str (s : String) : Json
  | arr (elems : List Json) : Json
  | obj (fields : List (String × Json)) : Json

/-- The Python exceptions the embedded code can raise.  `pyErrStr`
models `str(e)` for each. -/
inductive PyErr where
  | keyError (k : String) : PyErr
  | typeError (msg : String) : PyErr
  | attributeError (msg : String) : PyErr
  | indexError (msg : String) : PyErr
  | valueError (msg : String) : PyErr
deriving DecidableEq, Repr

/-- Models Python's `str(e)`: `str` of a `KeyError` is the `repr` of the
missing key (quoted), the other exceptions print their message. -/
def pyErrStr : PyErr → String
  | .keyError k => "'" ++ k ++ "'"
  | .typeError msg => msg
  | .attributeError msg => msg
  | .indexError msg => msg
  | .valueError msg => msg

/-- First-match lookup in a JSON object's field list (Python `dict`
lookup; duplicate keys do not arise from JSON parsing). -/
def lookupField : List (String × Json) → String → Option Json
  | [], _ => none
  | (k, v) :: rest, key => if k == key then some v else lookupField rest key

/-- Field lookup on a JSON value: `none` when the value is not an
object or lacks the key. -/
def jget : Json → String → Option Json
  | .obj fields, key => lookupField fields key
  | _, _ => none

/-- Python truthiness of a JSON value (`None`, `False`, `0`, `""`,
`[]`, `{}` are falsy). -/
def truthy : Json → Bool
  | .null => false
  | .bool b => b
  | .num n => n != 0
  | .str s => !s.isEmpty
  | .arr elems => !elems.isEmpty
  | .obj fields => !fields.isEmpty

/-- Python `==` between a JSON value and a string literal: equal only
when the value is that string (no exception for other types). -/
def jEqStr (v : Json) (s : String) : Bool :=
  match v with
  | .str t => t == s
  | _ => false

/-- Python `v[key]` with a string key: dict lookup raising `KeyError`
when the key is absent, `TypeError` when `v` is not a dict. -/
def pySub (v : Json) (key : String) : Except PyErr Json :=
  match v with
  | .obj fields =>
    match lookupField fields key with
    | some x => .ok x
    | none => .error (.keyError key)
  | .str _ => .error (.typeError "string indices must be integers")
  | .arr _ => .error (.typeError "list indices must be integers or slices, not str")
  | _ => .error (.typeError "object is not subscriptable")

/-- Python `v.get(key)`: `AttributeError` when `v` is not a dict,
otherwise `None` (here `Option.none`) for a missing key. -/
def pyGetAttr (v : Json) (key : String) : Except PyErr (Option Json) :=
  match v with
  | .obj _ => .ok (jget v key)
  | _ => .error (.attributeError "object has no attribute get")

/-- Python `v.get(key, default)`. -/
def pyGetAttrDefault (v : Json) (key : String) (dflt : Json) : Except PyErr Json :=
  match v with
  | .obj _ => .ok ((jget v key).getD dflt)
  | _ => .error (.attributeError "object has no attribute get")

/-- Python `v[0]`: first element of a list (`IndexError` when empty),
first character of a string, `KeyError` on a JSON-derived dict (whose
keys are strings, never the integer `0`), `TypeError` otherwise. -/
def pyIndex0 (v : Json) : Except PyErr Json :=
  match v with
  | .arr (x :: _) => .ok x
  | .arr [] => .error (.indexError "list index out of range")
  | .str s =>
    match s.data with
    | [] => .error (.indexError "string index out of range")
    | c :: _ => .ok (.str (String.mk [c]))
  | .obj _ => .error (.keyError "0")
  | _ => .error (.typeError "object is not subscriptable")

/-- The characters stripped by Python's `str.strip()` (ASCII
whitespace; exotic Unicode space characters are not modelled). -/
def pyIsSpace (c : Char) : Bool :=
  c == ' ' || c == '\t' || c == '\n' || c == '\r' || c == '\x0b' || c == '\x0c'

/-- Python `s.strip()` on the character list: remove leading and
trailing whitespace. -/
def pyStripData (l : List Char) : List Char :=
  ((l.dropWhile pyIsSpace).reverse.dropWhile pyIsSpace).reverse

/-- Python `s.strip()`: remove leading and trailing whitespace. -/
def pyStrip (s : String) : String :=
  String.mk (pyStripData s.data)

/-- The final test of the per-record loop:
`if city_name and city_name.strip(): cities.append(city_name.strip())`.
`city_name` is `None` or the extracted `plain_text` JSON value; a falsy
value is skipped, a truthy non-string raises `AttributeError` on
`.strip()`, a truthy string is stripped and kept only if non-empty. -/
def finalCheck : Option Json → Except PyErr (Option String)
  | none => .ok none
  | some v =>
    if truthy v then
      match v with
      | .str s => .ok (if (pyStrip s).isEmpty then none else some (pyStrip s))
      | _ => .error (.attributeError "object has no attribute strip")
    else .ok none

/-- `city_property['title'][0]['plain_text']` guarded by the truthiness
of the payload (`and city_property['title']` in the source): a falsy
payload extracts nothing, otherwise index `0` then key `plain_text`. -/
def takeFirstPlain (payload : Json) : Except PyErr (Option Json) :=
  if truthy payload then
    match pyIndex0 payload with
    | .error e => .error e
    | .ok seg =>
      match pySub seg "plain_text" with
      | .error e => .error e
      | .ok pt => .ok (some pt)
  else .ok none

/-- The `if city_property:` body of the source: dispatch on
`city_property['type']` and read the first segment of the `title` or
`rich_text` payload; any other kind extracts nothing. A falsy property
value is skipped without inspection. -/
def extractFromProp (prop : Json) : Except PyErr (Option Json) :=
  if truthy prop then
    match pySub prop "type" with
    | .error e => .error e
    | .ok t =>
      if jEqStr t "title" then
        match pySub prop "title" with
        | .error e => .error e
        | .ok payload => takeFirstPlain payload
      else if jEqStr t "rich_text" then
        match pySub prop "rich_text" with
        | .error e => .error e
        | .ok payload => takeFirstPlain payload
      else .ok none
  else .ok none

/-- `properties = page.get('properties', {})` followed by
`city_property = properties.get('City Name')`: yields the raw
`plain_text` JSON value of the record's city property, or `none` when
the record has no usable property. -/
def computeCityName (page : Json) : Except PyErr (Option Json) :=
  match pyGetAttrDefault page "properties" (.obj []) with
  | .error e => .error e
  | .ok properties =>
    match pyGetAttr properties "City Name" with
    | .error e => .error e
    | .ok none => .ok none
    | .ok (some prop) => extractFromProp prop

/-- One iteration of the per-record loop: `some s` means `s` is
appended to `cities`, `none` means the record is skipped (logged),
`error` means an exception escapes to the outer handler. -/
def extractCityName (page : Json) : Except PyErr (Option String) :=
  match computeCityName page with
  | .error e => .error e
  | .ok cn => finalCheck cn

/-- The `for page in results:` loop: accumulate extracted names in
record order; the first exception aborts the whole loop. -/
def processResults : List Json → Except PyErr (List String)
  | [] => .ok []
  | page :: rest =>
    match extractCityName page with
    | .error e => .error e
    | .ok name =>
      match processResults rest with
      | .error e => .error e
      | .ok cities =>
        match name with
        | some s => .ok (s :: cities)
        | none => .ok cities

/-- Python `iter(v)` as used by the `for` loop: a list yields its
elements, a string its characters, a dict its keys; other values raise
`TypeError`. -/
def pyIter : Json → Except PyErr (List Json)
  | .arr elems => .ok elems
  | .str s => .ok (s.data.map fun c => .str (String.mk [c]))
  | .obj fields => .ok (fields.map fun f => .str f.1)
  | _ => .error (.typeError "object is not iterable")

/-- `results = data.get('results', [])` followed by the loop. -/
def processBody (data : Json) : Except PyErr (List String) :=
  match pyGetAttrDefault data "results" (.arr []) with
  | .error e => .error e
  | .ok results =>
    match pyIter results with
    | .error e => .error e
    | .ok pages => processResults pages

/-- The body of the single outbound response: either text that parses
as JSON or text that does not (in which case `response.json()` raises
`ValueError`, whose exact message is content-dependent and modelled by
a fixed placeholder). -/
inductive RespBody where
  | jsonBody (j : Json) : RespBody
  | rawBody (s : String) : RespBody

/-- `response.json()`. -/
def respJson : RespBody → Except PyErr Json
  | .jsonBody j => .ok j
  | .rawBody _ => .error (.valueError "Expecting value: line 1 column 1 (char 0)")

/-- The outcome of `requests.post(...)` as the handler distinguishes
it: a response with an HTTP status and body, a `Timeout`, or another
`RequestException` carrying no response (`e.response is None`), whose
`str(e)` is the given string. -/
inductive UpstreamOutcome where
  | response (status : Nat) (body : RespBody) : UpstreamOutcome
  | timeout : UpstreamOutcome
  | connError (excStr : String) : UpstreamOutcome

/-- What the Flask layer sends back: a 200 JSON array of names, an
error object `{"error": message}` with a status code, or — when an
exception escapes the handler itself — the framework's default 500
page (`crashed`). -/
inductive HttpResponse where
  | ok (cities : List String) : HttpResponse
  | err (status : Nat) (message : Json) : HttpResponse
  | crashed (e : PyErr) : HttpResponse

/-- Models `str(e)` of the `HTTPError` raised by
`response.raise_for_status()` in the requests library:
`"<status> Client Error: <reason> for url: <url>"` for 4xx and
`"<status> Server Error: ..."` for 5xx.  The reason phrase and URL do
not affect any claim and are fixed placeholders. -/
def httpErrorStr (status : Nat) : String :=
  toString status ++
    ((if status < 500 then " Client Error: " else " Server Error: ") ++
      "reason for url: url")

/-- `f"请求 Notion API 失败: {e}"`. -/
def reqFailMsg (excStr : String) : String :=
  "请求 Notion API 失败: " ++ excStr

/-- `f"服务器内部错误: {e}"`. -/
def internalErrMsg (e : PyErr) : String :=
  "服务器内部错误: " ++ pyErrStr e

/-- The `except requests.exceptions.RequestException` branch for an
`HTTPError` raised by `raise_for_status` (so `e.response` is present
and carries `status`):
  * non-JSON body — `except ValueError` appends `(状态码: <status>)`;
  * JSON object body — `notion_error.get('message', error_message)`;
  * JSON non-object body — `.get` raises `AttributeError` inside the
    `except` clause, which no handler catches: the exception escapes. -/
def httpErrorResponse (status : Nat) (body : RespBody) : HttpResponse :=
  match body with
  | .rawBody _ =>
    .err status (.str (reqFailMsg (httpErrorStr status) ++ " (状态码: " ++ toString status ++ ")"))
  | .jsonBody j =>
    match j with
    | .obj fields =>
      match lookupField fields "message" with
      | some m => .err status m
      | none => .err status (.str (reqFailMsg (httpErrorStr status)))
    | _ => .crashed (.attributeError "object has no attribute get")

/-- The whole `get_cities` handler as a function of the outbound call's
outcome.  `raise_for_status` raises exactly when `400 ≤ status < 600`;
a timeout is answered with 504; a `RequestException` without a response
with 500 (`getattr(e.response, 'status_code', 500)`); any exception on
the success path (JSON decoding, record walking) with a 500 whose
message embeds `str(e)`. -/
def get_cities : UpstreamOutcome → HttpResponse
  | .timeout => .err 504 (.str "请求 Notion API 超时")
  | .connError excStr => .err 500 (.str (reqFailMsg excStr))
  | .response status body =>
    if 400 ≤ status ∧ status < 600 then
      httpErrorResponse status body
    else
      match respJson body with
      | .error e => .err 500 (.str (internalErrMsg e))
      | .ok data =>
        match processBody data with
        | .error e => .err 500 (.str (internalErrMsg e))
        | .ok cities => .ok cities

/-- `NOTION_API_TOKEN = os.environ.get('NOTION_API_TOKEN')` etc.:
truthiness of an environment lookup (`None` or `""` is falsy). -/
def pyTruthyStr : Option String → Bool
  | none => false
  | some s => !s.isEmpty

/-- The module-level startup checks: `exit(1)` when the token or the
database identifier is falsy, before `app.run` can serve anything. -/
def startupExits (token dbId : Option String) : Bool :=
  !pyTruthyStr token || !pyTruthyStr dbId

/-- The server reaches `app.run` (accepts requests) only when the
startup checks pass. -/
def serverAcceptsRequests (token dbId : Option String) : Bool :=
  !startupExits token dbId

/-- Claim-side description of a usable text payload: the property's
payload for its kind, when truthy, must be a non-empty array whose
first element is an object whose `plain_text` value is a string or
falsy — exactly the shapes on which the source's extraction cannot
raise. -/
def isStrJson : Json → Bool
  | .str _ => true
  | _ => false

def wfTextPayload : Json → Bool
  | .arr (seg :: _) =>
    (match seg with
     | .obj _ =>
       (match jget seg "plain_text" with
        | some pt => !truthy pt || isStrJson pt
        | none => false)
     | _ => false)
  | v => !truthy v

/-- A `City Name` property value on which the source's per-record
extraction raises no exception: falsy values are skipped outright;
a truthy value must be an object with a `type` field, and for the two
interpreted kinds its payload must be usable. -/
def wfProp : Json → Bool
  | .obj [] => true
  | .obj (f :: fs) =>
    (match lookupField (f :: fs) "type" with
     | some t =>
       if jEqStr t "title" then
         (match lookupField (f :: fs) "title" with
          | some payload => wfTextPayload payload
          | none => false)
       else if jEqStr t "rich_text" then
         (match lookupField (f :: fs) "rich_text" with
          | some payload => wfTextPayload payload
          | none => false)
       else true
     | none => false)
  | v => !truthy v

/-- A record on which the source's per-record extraction raises no
exception: an object whose `properties` value, when present, is an
object whose `City Name` value, when present, is well-formed. -/
def wfRecord : Json → Bool
  | .obj fields =>
    (match lookupField fields "properties" with
     | none => true
     | some (.obj qf) =>
       (match lookupField qf "City Name" with
        | none => true
        | some prop => wfProp prop)
     | some _ => false)
  | _ => false

/-- Claim-side reading of a payload: a non-empty segment list whose
first segment's `plain_text` is a string that is non-empty after
trimming yields that trimmed string. -/
def specFromPayload (payload : Json) : Option String :=
  match payload with
  | .arr (seg :: _) =>
    (match jget seg "plain_text" with
     | some (.str s) => if (pyStrip s).isEmpty then none else some (pyStrip s)
     | _ => none)
  | _ => none

/-- The spec's per-record extraction, written from the claim's words:
a property of kind `title` or `rich_text` whose payload carries a
usable first segment yields the trimmed name; anything else yields
nothing. -/
def specFromProp (prop : Json) : Option String :=
  match jget prop "type" with
  | some (.str k) =>
    if k == "title" || k == "rich_text" then
      match jget prop k with
      | some payload => specFromPayload payload
      | none => none
    else none
  | _ => none

/-- The spec's record-to-name map: look up the `City Name` property
and apply the claim-side extraction. -/
def specExtract (page : Json) : Option String :=
  match jget page "properties" with
  | some props =>
    (match jget props "City Name" with
     | some prop => specFromProp prop
     | none => none)
  | none => none

lemma specFromPayload_of_not_truthy (payload : Json) (h : truthy payload = false) :
    specFromPayload payload = none := by
  cases payload with
  | arr elems =>
    cases elems with
    | nil => rfl
    | cons x xs => simp [truthy] at h
  | _ => rfl

lemma specFromProp_of_not_truthy (prop : Json) (h : truthy prop = false) :
    specFromProp prop = none := by
  cases prop with
  | obj fields =>
    cases fields with
    | nil => rfl
    | cons f fs => simp [truthy] at h
  | _ => rfl

lemma pySub_of_jget (fields : List (String × Json)) (key : String) (v : Json)
    (h : jget (.obj fields) key = some v) : pySub (.obj fields) key = .ok v := by
  simp only [jget] at h
  simp [pySub, h]

lemma payload_corr (payload : Json) (h : wfTextPayload payload = true) :
    ∃ cn, takeFirstPlain payload = .ok cn ∧ finalCheck cn = .ok (specFromPayload payload) := by
  cases payload with
  | arr elems =>
    cases elems with
    | nil =>
      refine ⟨none, ?_, rfl⟩
      unfold takeFirstPlain
      rw [if_neg (by simp [truthy])]
    | cons seg rest =>
      have ht : truthy (Json.arr (seg :: rest)) = true := by simp [truthy]
      cases seg with
      | obj sf =>
        simp only [wfTextPayload] at h
        cases hpt : jget (.obj sf) "plain_text" with
        | none => rw [hpt] at h; simp at h
        | some pt =>
          rw [hpt] at h
          refine ⟨some pt, ?_, ?_⟩
          · unfold takeFirstPlain
            rw [if_pos ht]
            simp only [pyIndex0]
            rw [pySub_of_jget sf "plain_text" pt hpt]
          · by_cases htp : truthy pt = true
            · simp only [htp, Bool.not_true, Bool.false_or] at h
              cases pt with
              | str s => simp [finalCheck, htp, specFromPayload, hpt]
              | _ => simp [isStrJson] at h
            · have htp' : truthy pt = false := eq_false_of_ne_true htp
              simp only [finalCheck]
              rw [if_neg (by simp [htp'])]
              cases pt with
              | str s =>
                have hs : s = "" := by
                  simpa [truthy, String.isEmpty_iff] using htp'
                subst hs
                simp only [specFromPayload, hpt]
                rw [show (if (pyStrip "").isEmpty = true then none else some (pyStrip "")) = (none : Option String) from by decide]
              | _ => simp [specFromPayload, hpt]
      | _ => simp [wfTextPayload] at h
  | _ =>
    simp only [wfTextPayload, Bool.not_eq_true'] at h
    refine ⟨none, ?_, ?_⟩
    · unfold takeFirstPlain
      rw [if_neg (by simp [h])]
    · simp [finalCheck, specFromPayload_of_not_truthy _ h]

lemma jEqStr_true {t : Json} {s : String} (h : jEqStr t s = true) : t = .str s := by
  cases t with
  | str u => simp [jEqStr] at h; rw [h]
  | _ => simp [jEqStr] at h

lemma prop_corr (prop : Json) (h : wfProp prop = true) :
    ∃ cn, extractFromProp prop = .ok cn ∧ finalCheck cn = .ok (specFromProp prop) := by
  cases prop with
  | obj fields =>
    cases fields with
    | nil =>
      refine ⟨none, ?_, rfl⟩
      unfold extractFromProp
      rw [if_neg (by simp [truthy])]
    | cons f fs =>
      have ht : truthy (Json.obj (f :: fs)) = true := by simp [truthy]
      simp only [wfProp] at h
      cases hty : lookupField (f :: fs) "type" with
      | none => rw [hty] at h; simp at h
      | some t =>
        rw [hty] at h
        simp only [] at h
        have hsub : pySub (.obj (f :: fs)) "type" = .ok t := by simp [pySub, hty]
        by_cases h1 : jEqStr t "title" = true
        · obtain rfl := jEqStr_true h1
          rw [if_pos h1] at h
          cases hpl : lookupField (f :: fs) "title" with
          | none => rw [hpl] at h; simp at h
          | some payload =>
            rw [hpl] at h
            have hsp : pySub (.obj (f :: fs)) "title" = .ok payload := by
              simp [pySub, hpl]
            obtain ⟨cn, hc1, hc2⟩ := payload_corr payload h
            refine ⟨cn, ?_, ?_⟩
            · simp only [extractFromProp, ht, if_true, hsub, h1, hsp]
              exact hc1
            · simp only [specFromProp, jget, hty]
              simp only [jEqStr, beq_self_eq_true] at h1 ⊢
              simp [hpl, hc2]
        · by_cases h2 : jEqStr t "rich_text" = true
          · obtain rfl := jEqStr_true h2
            rw [if_neg h1, if_pos h2] at h
            cases hpl : lookupField (f :: fs) "rich_text" with
            | none => rw [hpl] at h; simp at h
            | some payload =>
              rw [hpl] at h
              have hsp : pySub (.obj (f :: fs)) "rich_text" = .ok payload := by
                simp [pySub, hpl]
              obtain ⟨cn, hc1, hc2⟩ := payload_corr payload h
              refine ⟨cn, ?_, ?_⟩
              · simp only [extractFromProp, ht, if_true, hsub]
                rw [if_neg h1]
                simp only [h2, if_true, hsp]
                exact hc1
              · simp only [specFromProp, jget, hty]
                have hne : ("rich_text" == "title") = false := by decide
                simp [hpl, hc2, hne]
          · refine ⟨none, ?_, ?_⟩
            · simp only [extractFromProp, ht, if_true, hsub]
              rw [if_neg h1, if_neg h2]
            · simp only [finalCheck, specFromProp, jget, hty]
              cases t with
              | str k =>
                have hk1 : (k == "title") = false := by
                  simpa [jEqStr] using h1
                have hk2 : (k == "rich_text") = false := by
                  simpa [jEqStr] using h2
                simp [hk1, hk2]
              | _ => rfl
  | _ =>
    simp only [wfProp, Bool.not_eq_true'] at h
    refine ⟨none, ?_, ?_⟩
    · unfold extractFromProp
      rw [if_neg (by simp [h])]
    · simp [finalCheck, specFromProp_of_not_truthy _ h]

lemma record_corr (page : Json) (h : wfRecord page = true) :
    extractCityName page = .ok (specExtract page) := by
  cases page with
  | obj pf =>
    simp only [wfRecord] at h
    cases hp : lookupField pf "properties" with
    | none =>
      unfold extractCityName computeCityName
      simp only [pyGetAttrDefault, jget, hp, Option.getD]
      simp [pyGetAttr, jget, lookupField, finalCheck, specExtract, hp]
    | some props =>
      rw [hp] at h
      cases props with
      | obj qf =>
        simp only [] at h
        unfold extractCityName computeCityName
        simp only [pyGetAttrDefault, jget, hp, Option.getD]
        simp only [pyGetAttr, jget]
        simp only [specExtract, jget, hp]
        cases hc : lookupField qf "City Name" with
        | none => simp [hc, finalCheck]
        | some prop =>
          rw [hc] at h
          obtain ⟨cn, hc1, hc2⟩ := prop_corr prop (by simpa using h)
          simp [hc, hc1, hc2]
      | _ => simp at h
  | _ => simp [wfRecord] at h

lemma processResults_wf (pages : List Json) (h : ∀ p ∈ pages, wfRecord p = true) :
    processResults pages = .ok (pages.filterMap specExtract) := by
  induction pages with
  | nil => rfl
  | cons page rest ih =>
    have h1 := h page (List.mem_cons_self page rest)
    have h2 : ∀ p ∈ rest, wfRecord p = true := fun p hp => h p (List.mem_cons_of_mem _ hp)
    unfold processResults
    rw [record_corr page h1, ih h2]
    cases hs : specExtract page <;> simp [List.filterMap_cons, hs]

lemma pyStrip_data (s : String) : (pyStrip s).data = pyStripData s.data := rfl

lemma dropWhile_head?_false {α : Type} {p : α → Bool} {l : List α} {c : α}
    (h : (l.dropWhile p).head? = some c) : p c = false := by
  have hh := List.head?_dropWhile_not p l
  rw [h] at hh
  exact hh

lemma pyStripData_head {l : List Char} {c : Char}
    (h : (pyStripData l).head? = some c) : pyIsSpace c = false := by
  unfold pyStripData at h
  rw [List.head?_reverse] at h
  obtain ⟨t, ht⟩ := List.dropWhile_suffix (l := (l.dropWhile pyIsSpace).reverse) pyIsSpace
  have hm : ((l.dropWhile pyIsSpace).reverse).getLast? = some c := by
    rw [← ht, List.getLast?_append, h]
    rfl
  rw [List.getLast?_reverse] at hm
  exact dropWhile_head?_false hm

lemma pyStripData_getLast {l : List Char} {c : Char}
    (h : (pyStripData l).getLast? = some c) : pyIsSpace c = false := by
  unfold pyStripData at h
  rw [List.getLast?_reverse] at h
  exact dropWhile_head?_false h

lemma pyStripData_nil {l : List Char} (h : ∀ c ∈ l, pyIsSpace c = true) :
    pyStripData l = [] := by
  unfold pyStripData
  have h1 : l.dropWhile pyIsSpace = [] := by
    rw [List.dropWhile_eq_nil_iff]
    simpa using h
  rw [h1]
  rfl

lemma pyStrip_whitespace {s : String} (h : ∀ c ∈ s.data, pyIsSpace c = true) :
    pyStrip s = "" := by
  unfold pyStrip
  rw [pyStripData_nil h]

lemma finalCheck_ok_some {cn : Option Json} {s : String}
    (h : finalCheck cn = .ok (some s)) : s ≠ "" ∧ ∃ t, s = pyStrip t := by
  cases cn with
  | none => simp [finalCheck] at h
  | some v =>
    by_cases ht : truthy v = true
    · simp only [finalCheck, ht, if_true] at h
      cases v with
      | str u =>
        simp only [] at h
        by_cases he : (pyStrip u).isEmpty = true
        · rw [if_pos he] at h
          simp at h
        · rw [if_neg he] at h
          have hs : s = pyStrip u := by
            simpa using h.symm
          subst hs
          refine ⟨?_, u, rfl⟩
          intro hempty
          exact he (by rw [hempty]; rfl)
      | _ => simp at h
    · simp [finalCheck, eq_false_of_ne_true ht] at h

lemma extractCityName_ok_some {page : Json} {s : String}
    (h : extractCityName page = .ok (some s)) : s ≠ "" ∧ ∃ t, s = pyStrip t := by
  unfold extractCityName at h
  cases hc : computeCityName page with
  | error e => rw [hc] at h; simp at h
  | ok cn =>
    rw [hc] at h
    exact finalCheck_ok_some h

lemma processResults_mem {pages : List Json} {cs : List String}
    (h : processResults pages = .ok cs) :
    ∀ s ∈ cs, s ≠ "" ∧ ∃ t, s = pyStrip t := by
  induction pages generalizing cs with
  | nil =>
    unfold processResults at h
    obtain rfl : ([] : List String) = cs := by simpa using h
    intro s hs
    cases hs
  | cons page rest ih =>
    unfold processResults at h
    cases he : extractCityName page with
    | error e => rw [he] at h; simp at h
    | ok name =>
      rw [he] at h
      simp only [] at h
      cases hr : processResults rest with
      | error e => rw [hr] at h; simp at h
      | ok csr =>
        rw [hr] at h
        simp only [] at h
        cases name with
        | some u =>
          obtain rfl : u :: csr = cs := by simpa using h
          intro s hs
          rcases List.mem_cons.mp hs with rfl | hmem
          · exact extractCityName_ok_some he
          · exact ih hr s hmem
        | none =>
          obtain rfl : csr = cs := by simpa using h
          exact ih hr

lemma httpErrorResponse_ne_ok (status : Nat) (body : RespBody) (cs : List String) :
    httpErrorResponse status body ≠ .ok cs := by
  unfold httpErrorResponse
  cases body with
  | rawBody s => simp
  | jsonBody j =>
    cases j with
    | obj fields => cases hm : lookupField fields "message" <;> simp [hm]
    | _ => simp

lemma get_cities_ok_inv {out : UpstreamOutcome} {cs : List String}
    (h : get_cities out = .ok cs) : ∃ pages, processResults pages = .ok cs := by
  cases out with
  | timeout => simp [get_cities] at h
  | connError e => simp [get_cities] at h
  | response status body =>
    unfold get_cities at h
    simp only [] at h
    by_cases hs : 400 ≤ status ∧ status < 600
    · rw [if_pos hs] at h
      exact absurd h (httpErrorResponse_ne_ok _ _ _)
    · rw [if_neg hs] at h
      cases hb : respJson body with
      | error e => rw [hb] at h; simp at h
      | ok data =>
        rw [hb] at h
        simp only [] at h
        unfold processBody at h
        cases h1 : pyGetAttrDefault data "results" (.arr []) with
        | error e => rw [h1] at h; simp at h
        | ok results =>
          rw [h1] at h
          simp only [] at h
          cases h2 : pyIter results with
          | error e => rw [h2] at h; simp at h
          | ok pages =>
            rw [h2] at h
            simp only [] at h
            cases h3 : processResults pages with
            | error e => rw [h3] at h; simp at h
            | ok csr =>
              rw [h3] at h
              simp only [] at h
              obtain rfl : csr = cs := by simpa using h
              exact ⟨pages, h3⟩

lemma get_cities_success (status : Nat) (hs : ¬(400 ≤ status ∧ status < 600))
    (fields : List (String × Json)) (pages : List Json)
    (hres : lookupField fields "results" = some (.arr pages)) :
    get_cities (.response status (.jsonBody (.obj fields))) =
      (match processResults pages with
       | .ok cities => .ok cities
       | .error e => .err 500 (.str (internalErrMsg e))) := by
  unfold get_cities
  simp only []
  rw [if_neg hs]
  simp only [respJson]
  unfold processBody
  simp only [pyGetAttrDefault, jget, hres, Option.getD_some]
  simp only [pyIter]
  cases processResults pages <;> rfl

lemma processResults_cons (page : Json) (rest : List Json) :
    processResults (page :: rest) =
      (match extractCityName page with
       | .error e => .error e
       | .ok name =>
         match processResults rest with
         | .error e => .error e
         | .ok cities =>
           match name with
           | some s => .ok (s :: cities)
           | none => .ok cities) := rfl

lemma processResults_skip {page : Json} (hnone : extractCityName page = .ok none)
    (xs ys : List Json) :
    processResults (xs ++ page :: ys) = processResults (xs ++ ys) := by
  induction xs with
  | nil =>
    simp only [List.nil_append]
    rw [processResults_cons, hnone]
    cases h : processResults ys <;> rfl
  | cons x xs ih =>
    simp only [List.cons_append]
    rw [processResults_cons, processResults_cons, ih]

lemma processResults_error {xs : List Json}
    (hxs : ∀ p ∈ xs, ∃ r, extractCityName p = .ok r)
    {page : Json} {e : PyErr} (hbad : extractCityName page = .error e) (ys : List Json) :
    processResults (xs ++ page :: ys) = .error e := by
  induction xs with
  | nil =>
    simp only [List.nil_append]
    unfold processResults
    rw [hbad]
  | cons x xs ih =>
    obtain ⟨r, hr⟩ := hxs x (List.mem_cons_self _ _)
    have h2 : ∀ p ∈ xs, ∃ r, extractCityName p = .ok r :=
      fun p hp => hxs p (List.mem_cons_of_mem _ hp)
    simp only [List.cons_append]
    unfold processResults
    rw [hr, ih h2]

lemma extractFromProp_other {rf : List (String × Json)} {k : String}
    (hty : lookupField rf "type" = some (.str k))
    (h1 : k ≠ "title") (h2 : k ≠ "rich_text") :
    extractFromProp (.obj rf) = .ok none := by
  have hne : rf ≠ [] := by
    intro hr
    subst hr
    simp [lookupField] at hty
  unfold extractFromProp
  rw [if_pos (show truthy (.obj rf) = true by simp [truthy, hne])]
  rw [show pySub (.obj rf) "type" = .ok (.str k) from by simp [pySub, hty]]
  simp only []
  rw [if_neg (by simp [jEqStr, h1]), if_neg (by simp [jEqStr, h2])]

lemma extractCityName_obj_prop {pf qf : List (String × Json)} {prop : Json}
    (hprops : lookupField pf "properties" = some (.obj qf))
    (hprop : lookupField qf "City Name" = some prop) :
    extractCityName (.obj pf) =
      (match extractFromProp prop with
       | .error e => .error e
       | .ok cn => finalCheck cn) := by
  unfold extractCityName computeCityName
  simp only [pyGetAttrDefault, jget, hprops, Option.getD_some]
  simp only [pyGetAttr, jget, hprop]

/-- `sub` occurs inside `s`. -/
def containsStr (s sub : String) : Prop := ∃ a b, s = a ++ (sub ++ b)

lemma finalCheck_whitespace {u : String} (h : ∀ c ∈ u.data, pyIsSpace c = true) :
    finalCheck (some (.str u)) = .ok none := by
  by_cases ht : truthy (.str u) = true
  · simp only [finalCheck, ht, if_true]
    rw [pyStrip_whitespace h]
    rfl
  · simp [finalCheck, eq_false_of_ne_true ht]

lemma truthy_obj_ne_nil {rf : List (String × Json)} (hne : rf ≠ []) :
    truthy (.obj rf) = true := by
  cases rf with
  | nil => exact absurd rfl hne
  | cons a l => simp [truthy]

lemma extractFromProp_no_type {rf : List (String × Json)} (hne : rf ≠ [])
    (hty : lookupField rf "type" = none) :
    extractFromProp (.obj rf) = .error (.keyError "type") := by
  unfold extractFromProp
  rw [if_pos (truthy_obj_ne_nil hne)]
  rw [show pySub (.obj rf) "type" = .error (.keyError "type") from by simp [pySub, hty]]

lemma extractFromProp_no_plain {rf sf : List (String × Json)} {k : String} {segs : List Json}
    (hty : lookupField rf "type" = some (.str k))
    (hk : k = "title" ∨ k = "rich_text")
    (hpl : lookupField rf k = some (.arr (.obj sf :: segs)))
    (hnp : lookupField sf "plain_text" = none) :
    extractFromProp (.obj rf) = .error (.keyError "plain_text") := by
  have hne : rf ≠ [] := by
    intro hr
    subst hr
    simp [lookupField] at hty
  unfold extractFromProp
  rw [if_pos (truthy_obj_ne_nil hne)]
  rw [show pySub (.obj rf) "type" = .ok (.str k) from by simp [pySub, hty]]
  simp only []
  rcases hk with rfl | rfl
  · rw [if_pos (by decide)]
    rw [show pySub (.obj rf) "title" = .ok (.arr (.obj sf :: segs)) from by
      simp [pySub, hpl]]
    simp only []
    unfold takeFirstPlain
    rw [if_pos (by simp [truthy])]
    simp only [pyIndex0]
    rw [show pySub (.obj sf) "plain_text" = .error (.keyError "plain_text") from by
      simp [pySub, hnp]]
  · rw [if_neg (by decide), if_pos (by decide)]
    rw [show pySub (.obj rf) "rich_text" = .ok (.arr (.obj sf :: segs)) from by
      simp [pySub, hpl]]
    simp only []
    unfold takeFirstPlain
    rw [if_pos (by simp [truthy])]
    simp only [pyIndex0]
    rw [show pySub (.obj sf) "plain_text" = .error (.keyError "plain_text") from by
      simp [pySub, hnp]]

/-- Claim C4: on an upstream timeout, the handler answers HTTP 504 with
the JSON error object whose message is the fixed, non-empty timeout
text, and (being an `err`, not an `ok`) returns no partial list of
names. -/
theorem claimC4 :
    get_cities .timeout = .err 504 (.str "请求 Notion API 超时")
    ∧ ("请求 Notion API 超时" : String) ≠ "" := by
  exact ⟨rfl, by decide⟩

/-- Claim C6 counterexample: 300 is not a 2xx status, yet an upstream
response with status 300 and a well-formed JSON body is not classified
as a failure — `raise_for_status` only raises for 4xx/5xx — and the
handler happily extracts and returns 200 with names, refuting the
claim for general non-2xx statuses. -/
theorem claimC6_counterexample :
    ¬(200 ≤ 300 ∧ 300 < 300)
    ∧ get_cities (.response 300 (.jsonBody (.obj [("results", .arr
        [.obj [("properties", .obj [("City Name", .obj
          [("type", .str "title"),
           ("title", .arr [.obj [("plain_text", .str "Tokyo")]])])])]])])))
      = .ok ["Tokyo"] := by
  exact ⟨by omega, rfl⟩

/-- Claim C6 (amended): for every upstream response with a 4xx or 5xx
status — the statuses `raise_for_status` raises on — the handler
classifies it as an upstream failure and never returns a 200 list of
names. -/
theorem claimC6 (status : Nat) (body : RespBody) (cities : List String)
    (h4 : 400 ≤ status) (h6 : status < 600) :
    get_cities (.response status body) ≠ .ok cities := by
  unfold get_cities
  simp only []
  rw [if_pos ⟨h4, h6⟩]
  exact httpErrorResponse_ne_ok status body cities

theorem claimC6_witness :
    get_cities (.response 404 (.rawBody "gone")) ≠ .ok [] :=
  claimC6 404 (.rawBody "gone") [] (by omega) (by omega)

/-- Claim C8: when the upstream API token or the database identifier is
absent from the environment, the module-level startup check calls
`exit(1)` before `app.run`, so the server accepts no requests. -/
theorem claimC8 (token dbId : Option String) (h : token = none ∨ dbId = none) :
    startupExits token dbId = true ∧ serverAcceptsRequests token dbId = false := by
  rcases h with rfl | rfl
  · simp [startupExits, serverAcceptsRequests, pyTruthyStr]
  · simp [startupExits, serverAcceptsRequests, pyTruthyStr]

theorem claimC8_witness :
    startupExits none (some "db123") = true
    ∧ serverAcceptsRequests none (some "db123") = false :=
  claimC8 none (some "db123") (Or.inl rfl)

/-- Claim C9: a 2xx upstream response whose JSON body is an object
without a `results` key is answered with HTTP 200 and the empty array,
because `data.get('results', [])` substitutes an empty record list. -/
theorem claimC9 (status : Nat) (fields : List (String × Json))
    (h2xx : 200 ≤ status ∧ status < 300)
    (hnone : lookupField fields "results" = none) :
    get_cities (.response status (.jsonBody (.obj fields))) = .ok [] := by
  unfold get_cities
  simp only []
  rw [if_neg (by omega)]
  simp only [respJson]
  unfold processBody
  simp only [pyGetAttrDefault, jget, hnone, Option.getD_none]
  simp only [pyIter]
  rfl

theorem claimC9_witness :
    get_cities (.response 200 (.jsonBody (.obj [("object", .str "list")]))) = .ok [] :=
  claimC9 200 [("object", .str "list")] (by omega) rfl

/-- Claim C1 counterexample: of these two records exactly M = 1 has a
valid non-empty title property, so the claim promises HTTP 200 with
exactly one name; but the other record's truthy `City Name` object has
no `type` key, the lookup raises `KeyError`, and the whole request is
answered 500 — the claim's unconditional form is false. -/
theorem claimC1_counterexample :
    List.countP (fun p => (specExtract p).isSome)
      [Json.obj [("properties", Json.obj [("City Name", Json.obj
          [("type", Json.str "title"),
           ("title", Json.arr [Json.obj [("plain_text", Json.str "Tokyo")]])])])],
       Json.obj [("properties", Json.obj [("City Name", Json.obj
          [("note", Json.str "missing type")])])]] = 1
    ∧ get_cities (.response 200 (.jsonBody (.obj [("results", .arr
        [Json.obj [("properties", Json.obj [("City Name", Json.obj
            [("type", Json.str "title"),
             ("title", Json.arr [Json.obj [("plain_text", Json.str "Tokyo")]])])])],
         Json.obj [("properties", Json.obj [("City Name", Json.obj
            [("note", Json.str "missing type")])])]])])))
      = .err 500 (.str "服务器内部错误: 'type'")
    ∧ (∀ cities : List String, get_cities (.response 200 (.jsonBody (.obj [("results", .arr
        [Json.obj [("properties", Json.obj [("City Name", Json.obj
            [("type", Json.str "title"),
             ("title", Json.arr [Json.obj [("plain_text", Json.str "Tokyo")]])])])],
         Json.obj [("properties", Json.obj [("City Name", Json.obj
            [("note", Json.str "missing type")])])]])])))
        ≠ .ok cities) := by
  refine ⟨rfl, rfl, ?_⟩
  intro cities hcontra
  rw [show get_cities (.response 200 (.jsonBody (.obj [("results", .arr
        [Json.obj [("properties", Json.obj [("City Name", Json.obj
            [("type", Json.str "title"),
             ("title", Json.arr [Json.obj [("plain_text", Json.str "Tokyo")]])])])],
         Json.obj [("properties", Json.obj [("City Name", Json.obj
            [("note", Json.str "missing type")])])]])])))
      = .err 500 (.str "服务器内部错误: 'type'") from rfl] at hcontra
  exact HttpResponse.noConfusion hcontra

/-- Claim C1 (amended): for a 2xx upstream response whose body carries
a `results` array of well-formed records (records whose extraction
raises no exception), the handler returns HTTP 200 with exactly M
strings — M the number of records with a usable non-empty
title/rich-text `City Name` — in the records' original order
(`filterMap` preserves relative order). -/
theorem claimC1 (status : Nat) (fields : List (String × Json)) (pages : List Json)
    (h2xx : 200 ≤ status ∧ status < 300)
    (hres : lookupField fields "results" = some (.arr pages))
    (hwf : ∀ p ∈ pages, wfRecord p = true) :
    get_cities (.response status (.jsonBody (.obj fields)))
        = .ok (pages.filterMap specExtract)
    ∧ (pages.filterMap specExtract).length
        = pages.countP (fun p => (specExtract p).isSome) := by
  constructor
  · rw [get_cities_success status (by omega) fields pages hres,
       processResults_wf pages hwf]
  · exact List.length_filterMap_eq_countP specExtract pages

def c1GoodPage : Json :=
  .obj [("properties", .obj [("City Name", .obj
    [("type", .str "title"),
     ("title", .arr [.obj [("plain_text", .str " Tokyo ")]])])])]

def c1NumberPage : Json :=
  .obj [("properties", .obj [("City Name", .obj
    [("type", .str "number"), ("number", .num 5)])])]

def c1Pages : List Json := [c1GoodPage, c1NumberPage]

def c1Fields : List (String × Json) := [("results", .arr c1Pages)]

theorem claimC1_witness :
    get_cities (.response 200 (.jsonBody (.obj c1Fields)))
      = .ok (c1Pages.filterMap specExtract)
    ∧ (c1Pages.filterMap specExtract).length
      = c1Pages.countP (fun p => (specExtract p).isSome) :=
  claimC1 200 c1Fields c1Pages (by omega) rfl (by decide)

/-- Claim C2: a record whose `City Name` property is a tagged object of
a kind other than `title` and `rich_text` is skipped — its extraction
yields nothing and raises nothing, whatever its payload — so it
contributes no element to the loop's output nor to the handler's
response. -/
theorem claimC2 (pf qf rf : List (String × Json)) (k : String)
    (hprops : lookupField pf "properties" = some (.obj qf))
    (hprop : lookupField qf "City Name" = some (.obj rf))
    (hty : lookupField rf "type" = some (.str k))
    (h1 : k ≠ "title") (h2 : k ≠ "rich_text") :
    extractCityName (.obj pf) = .ok none
    ∧ (∀ xs ys, processResults (xs ++ .obj pf :: ys) = processResults (xs ++ ys))
    ∧ (∀ (status : Nat), ¬(400 ≤ status ∧ status < 600) →
        ∀ (more : List (String × Json)) (xs ys : List Json),
        get_cities (.response status (.jsonBody (.obj (("results",
            .arr (xs ++ .obj pf :: ys)) :: more))))
          = get_cities (.response status (.jsonBody (.obj (("results",
              .arr (xs ++ ys)) :: more))))) := by
  have hex : extractCityName (.obj pf) = .ok none := by
    rw [extractCityName_obj_prop hprops hprop, extractFromProp_other hty h1 h2]
    rfl
  refine ⟨hex, fun xs ys => processResults_skip hex xs ys, ?_⟩
  intro status hs more xs ys
  rw [get_cities_success status hs (("results", .arr (xs ++ .obj pf :: ys)) :: more)
        (xs ++ .obj pf :: ys) (by simp [lookupField]),
     get_cities_success status hs (("results", .arr (xs ++ ys)) :: more)
        (xs ++ ys) (by simp [lookupField]),
     processResults_skip hex xs ys]

theorem claimC2_witness :
    extractCityName (.obj [("properties", .obj [("City Name", .obj
      [("type", .str "number"), ("number", .num 5)])])]) = .ok none :=
  (claimC2 [("properties", .obj [("City Name", .obj
      [("type", .str "number"), ("number", .num 5)])])]
    [("City Name", .obj [("type", .str "number"), ("number", .num 5)])]
    [("type", .str "number"), ("number", .num 5)]
    "number" rfl rfl rfl (by decide) (by decide)).1

/-- Claim C3: every string the handler returns is non-empty and starts
and ends with a non-whitespace character, and a record whose extracted
plain-text value is whitespace-only is excluded: the loop strips first
and then keeps the name only if it is non-empty. -/
theorem claimC3 (out : UpstreamOutcome) (cities : List String)
    (h : get_cities out = .ok cities) :
    (∀ s ∈ cities, s ≠ ""
       ∧ (∀ c, s.data.head? = some c → pyIsSpace c = false)
       ∧ (∀ c, s.data.getLast? = some c → pyIsSpace c = false))
    ∧ (∀ (pf qf : List (String × Json)) (prop : Json) (u : String),
        lookupField pf "properties" = some (.obj qf) →
        lookupField qf "City Name" = some prop →
        extractFromProp prop = .ok (some (.str u)) →
        (∀ c ∈ u.data, pyIsSpace c = true) →
        extractCityName (.obj pf) = .ok none) := by
  constructor
  · obtain ⟨pages, hp⟩ := get_cities_ok_inv h
    intro s hs
    obtain ⟨hne, t, rfl⟩ := processResults_mem hp s hs
    refine ⟨hne, ?_, ?_⟩
    · intro c hc
      rw [pyStrip_data] at hc
      exact pyStripData_head hc
    · intro c hc
      rw [pyStrip_data] at hc
      exact pyStripData_getLast hc
  · intro pf qf prop u hprops hprop hext hws
    rw [extractCityName_obj_prop hprops hprop, hext]
    exact finalCheck_whitespace hws

def c3Body : Json :=
  .obj [("results", .arr [.obj [("properties", .obj [("City Name", .obj
    [("type", .str "rich_text"),
     ("rich_text", .arr [.obj [("plain_text", .str " Paris ")]])])])]])]

theorem claimC3_witness : ("Paris" : String) ≠ "" :=
  ((claimC3 (.response 200 (.jsonBody c3Body)) ["Paris"] rfl).1 "Paris" (by simp)).1

/-- Claim C5 counterexample: a 404 whose body is parseable JSON but not
an object (here `[]`) makes `notion_error.get('message', ...)` raise
`AttributeError` inside the `except` clause; the exception escapes the
handler and the framework answers a default 500, so the handler does
not respond with the upstream's own status 404 at all. -/
theorem claimC5_counterexample :
    ¬ ∃ m, get_cities (.response 404 (.jsonBody (.arr []))) = .err 404 m := by
  rintro ⟨m, hm⟩
  have hc : get_cities (.response 404 (.jsonBody (.arr [])))
      = .crashed (.attributeError "object has no attribute get") := rfl
  rw [hc] at hm
  exact HttpResponse.noConfusion hm

/-- Claim C5 (amended): on a 4xx/5xx upstream status the handler echoes
the upstream status; the message is the body's `message` field when
the body is a parseable JSON object containing one; a JSON object
without the field or an unparseable body gets a synthesized message
containing the status code; a parseable JSON non-object body instead
makes the error handler itself raise, and the framework's default 500
is returned. -/
theorem claimC5 (status : Nat) (h4 : 400 ≤ status) (h6 : status < 600) :
    (∀ (fs : List (String × Json)) (m : Json), lookupField fs "message" = some m →
        get_cities (.response status (.jsonBody (.obj fs))) = .err status m)
    ∧ (∀ fs : List (String × Json), lookupField fs "message" = none →
        get_cities (.response status (.jsonBody (.obj fs)))
          = .err status (.str (reqFailMsg (httpErrorStr status)))
        ∧ containsStr (reqFailMsg (httpErrorStr status)) (toString status))
    ∧ (∀ raw : String,
        get_cities (.response status (.rawBody raw))
          = .err status (.str (reqFailMsg (httpErrorStr status)
              ++ " (状态码: " ++ toString status ++ ")"))
        ∧ containsStr (reqFailMsg (httpErrorStr status)
            ++ " (状态码: " ++ toString status ++ ")") (toString status))
    ∧ (∀ elems : List Json,
        get_cities (.response status (.jsonBody (.arr elems)))
          = .crashed (.attributeError "object has no attribute get")) := by
  have hif : ∀ b : RespBody,
      get_cities (.response status b) = httpErrorResponse status b := by
    intro b
    unfold get_cities
    simp only []
    rw [if_pos ⟨h4, h6⟩]
  refine ⟨?_, ?_, ?_, ?_⟩
  · intro fs m hm
    rw [hif]
    unfold httpErrorResponse
    simp only [hm]
  · intro fs hm
    refine ⟨?_, ?_⟩
    · rw [hif]
      unfold httpErrorResponse
      simp only [hm]
    · exact ⟨"请求 Notion API 失败: ",
        (if status < 500 then " Client Error: " else " Server Error: ")
          ++ "reason for url: url", rfl⟩
  · intro raw
    refine ⟨?_, ?_⟩
    · rw [hif]
      rfl
    · exact ⟨reqFailMsg (httpErrorStr status) ++ " (状态码: ", ")",
        by rw [String.append_assoc]⟩
  · intro elems
    rw [hif]
    rfl

theorem claimC5_witness :
    get_cities (.response 404 (.jsonBody (.obj [("message", .str "not found")])))
      = .err 404 (.str "not found") :=
  (claimC5 404 (by omega) (by omega)).1 [("message", .str "not found")]
    (.str "not found") rfl

/-- Claim C7 counterexample: the 500 message of the generic handler is
`f"服务器内部错误: {e}"`, which embeds the particular exception — two
different malformed bodies yield two different messages, so the
message is not independent of the exception as claimed. -/
theorem claimC7_counterexample :
    get_cities (.response 200 (.jsonBody (.obj [("results", .arr
        [.obj [("properties", .obj [("City Name",
            .obj [("foo", .str "bar")])])]])])))
      = .err 500 (.str "服务器内部错误: 'type'")
    ∧ get_cities (.response 200 (.jsonBody (.obj [("results", .arr
        [.obj [("properties", .obj [("City Name", .obj
          [("type", .str "title"),
           ("title", .arr [.obj [("oops", .str "x")]])])])]])])))
      = .err 500 (.str "服务器内部错误: 'plain_text'")
    ∧ ("服务器内部错误: 'type'" : String) ≠ "服务器内部错误: 'plain_text'" := by
  exact ⟨rfl, rfl, by decide⟩

/-- Claim C7 (amended): any exception on the success path that is
neither a timeout nor a request exception is answered with HTTP 500
and a message made of the fixed internal-error text followed by the
exception's own text (so the prefix is generic, the suffix is not). -/
theorem claimC7 (status : Nat) (hs : ¬(400 ≤ status ∧ status < 600)) :
    (∀ (data : Json) (e : PyErr), processBody data = .error e →
        get_cities (.response status (.jsonBody data))
          = .err 500 (.str (internalErrMsg e)))
    ∧ (∀ raw : String, get_cities (.response status (.rawBody raw))
        = .err 500 (.str (internalErrMsg
            (.valueError "Expecting value: line 1 column 1 (char 0)")))) := by
  constructor
  · intro data e he
    unfold get_cities
    simp only []
    rw [if_neg hs]
    simp only [respJson]
    rw [he]
  · intro raw
    unfold get_cities
    simp only []
    rw [if_neg hs]
    rfl

theorem claimC7_witness :
    get_cities (.response 200 (.jsonBody (.obj [("results", .num 3)])))
      = .err 500 (.str (internalErrMsg (.typeError "object is not iterable"))) :=
  (claimC7 200 (by omega)).1 (.obj [("results", .num 3)])
    (.typeError "object is not iterable") rfl

def c10EmptyPropPage : Json :=
  .obj [("properties", .obj [("City Name", .obj ([] : List (String × Json)))])]

def c10ParisPage : Json :=
  .obj [("properties", .obj [("City Name", .obj
    [("type", .str "title"),
     ("title", .arr [.obj [("plain_text", .str "Paris")]])])])]

/-- Claim C10 counterexample: a `City Name` property that is the empty
object lacks a `type` key, yet the request does not fail — the empty
dict is falsy, `if city_property:` skips it, and the other record's
name is returned with HTTP 200, refuting the claim's unconditional
`500` for records lacking a `type` key. -/
theorem claimC10_counterexample :
    jget (.obj ([] : List (String × Json))) "type" = none
    ∧ get_cities (.response 200 (.jsonBody (.obj [("results",
        .arr [c10EmptyPropPage, c10ParisPage])])))
      = .ok ["Paris"]
    ∧ (∀ m : Json, get_cities (.response 200 (.jsonBody (.obj [("results",
        .arr [c10EmptyPropPage, c10ParisPage])])))
      ≠ .err 500 m) := by
  refine ⟨rfl, rfl, ?_⟩
  intro m hcontra
  rw [show get_cities (.response 200 (.jsonBody (.obj [("results",
        .arr [c10EmptyPropPage, c10ParisPage])])))
      = .ok ["Paris"] from rfl] at hcontra
  exact HttpResponse.noConfusion hcontra

/-- Claim C10 (amended): when a record's `City Name` property is a
non-empty (truthy) object lacking a `type` key, or of kind
title/rich-text with a non-empty segment list whose first segment is
an object lacking `plain_text`, and the records before it extract
without raising, the whole request fails with HTTP 500 carrying the
`KeyError` text, and no names are returned. -/
theorem claimC10 (pf qf rf : List (String × Json))
    (hprops : lookupField pf "properties" = some (.obj qf))
    (hprop : lookupField qf "City Name" = some (.obj rf))
    (hbad : (rf ≠ [] ∧ lookupField rf "type" = none)
      ∨ (∃ (k : String) (sf : List (String × Json)) (segs : List Json),
          lookupField rf "type" = some (.str k)
          ∧ (k = "title" ∨ k = "rich_text")
          ∧ lookupField rf k = some (.arr (.obj sf :: segs))
          ∧ lookupField sf "plain_text" = none))
    (xs ys : List Json) (hxs : ∀ p ∈ xs, ∃ r, extractCityName p = .ok r)
    (status : Nat) (hstat : ¬(400 ≤ status ∧ status < 600))
    (more : List (String × Json)) :
    ∃ key, (key = "type" ∨ key = "plain_text")
      ∧ get_cities (.response status (.jsonBody (.obj (("results",
          .arr (xs ++ .obj pf :: ys)) :: more))))
        = .err 500 (.str (internalErrMsg (.keyError key))) := by
  have hbad' : ∃ key, (key = "type" ∨ key = "plain_text")
      ∧ extractCityName (.obj pf) = .error (.keyError key) := by
    rcases hbad with ⟨hne, hty⟩ | ⟨k, sf, segs, hty, hk, hpl, hnp⟩
    · refine ⟨"type", Or.inl rfl, ?_⟩
      rw [extractCityName_obj_prop hprops hprop, extractFromProp_no_type hne hty]
    · refine ⟨"plain_text", Or.inr rfl, ?_⟩
      rw [extractCityName_obj_prop hprops hprop,
         extractFromProp_no_plain hty hk hpl hnp]
  obtain ⟨key, hkey, hext⟩ := hbad'
  refine ⟨key, hkey, ?_⟩
  rw [get_cities_success status hstat (("results", .arr (xs ++ .obj pf :: ys)) :: more)
        (xs ++ .obj pf :: ys) (by simp [lookupField]),
     processResults_error hxs hext ys]

theorem claimC10_witness :
    ∃ key, (key = "type" ∨ key = "plain_text")
      ∧ get_cities (.response 200 (.jsonBody (.obj [("results",
          .arr [.obj [("properties", .obj [("City Name",
              .obj [("foo", .num 1)])])]])])))
        = .err 500 (.str (internalErrMsg (.keyError key))) :=
  claimC10 [("properties", .obj [("City Name", .obj [("foo", .num 1)])])]
    [("City Name", .obj [("foo", .num 1)])] [("foo", .num 1)]
    rfl rfl (Or.inl ⟨List.cons_ne_nil _ _, rfl⟩) [] []
    (fun p hp => absurd hp (List.not_mem_nil p)) 200 (by omega) []

example :
    get_cities (.response 200 (.jsonBody (.obj
      [("results", .arr
        [.obj [("properties", .obj [("City Name", .obj
          [("type", .str "title"),
           ("title", .arr [.obj [("plain_text", .str " Tokyo ")]])])])],
         .obj [("properties", .obj [("City Name", .obj
          [("type", .str "number"), ("number", .num 5)])])]])])))
      = .ok ["Tokyo"] := rfl
